import Mathlib

/-!
Verification development for the Grade_Visualizer repository.

The trajectory generators of `paths.py` are embedded as pure functions over
the rationals.  NumPy's global random source is modelled as a stream of
rational draws `ℕ → ℚ`: the k-th value of the stream is the raw number
produced by the k-th call to `np.random.randn()` / `np.random.rand()` after
the most recent (re)seeding.  `np.random.seed(seed)` is modelled by
`seedStream seed`, a fixed function of the seed alone: the claims depend only
on the stream being fully determined by the seed, never on its actual values.
Where a generator draws from `np.random.rand()` (uniform on [0,1)) the
corresponding theorems carry the range of that draw as a hypothesis.
-/

namespace GradeVisualizer

/-- Model of the state of NumPy's global generator right after
`np.random.seed(s)`: a fixed, seed-determined stream of draws. -/
def seedStream (s : ℤ) : ℕ → ℚ :=
  fun k => ((s + (k : ℤ) : ℤ) : ℚ)

/-- The stream a generator actually reads: the seed-determined stream when a
seed is supplied (`np.random.seed(seed)` was executed), the ambient global
stream `g` otherwise. -/
def withSeed : Option ℤ → (ℕ → ℚ) → (ℕ → ℚ)
  | some s, _ => seedStream s
  | none, g => g

/-- The clamp `min(max(2.0, nxt), 4.0)` applied in every generator of
`paths.py` before a candidate value is appended. -/
def clampGrade (x : ℚ) : ℚ :=
  min (max 2 x) 4

/-- The shared loop template of `paths.py`: `for i in range(1, steps)` append
`min(max(2.0, cand(i, traj[-1])), 4.0)`.  `i` is the 1-based loop index and
`n` the number of remaining iterations, so a generator with step count
`steps` runs `extendTraj cand 1 (steps - 1).toNat start`. -/
def extendTraj (cand : ℕ → ℚ → ℚ) : ℕ → ℕ → ℚ → List ℚ
  | _, 0, _ => []
  | i, n + 1, prev =>
    (clampGrade (cand i prev)) :: extendTraj cand (i + 1) n (clampGrade (cand i prev))

/-- Candidate rule of `generate_balanced_growth`:
`traj[-1] + (0.05 * np.random.randn() + 0.06)`; iteration `i` consumes
draw `i - 1`. -/
def balancedGrowthCand (om : ℕ → ℚ) (i : ℕ) (prev : ℚ) : ℚ :=
  prev + (0.05 * om (i - 1) + 0.06)

/-- `generate_balanced_growth` of `paths.py`.  `steps` is an integer (Python
allows any int; `range(1, steps)` is empty for `steps ≤ 1`), `g` the ambient
random stream. -/
def generate_balanced_growth (start : ℚ) (steps : ℤ) (seed : Option ℤ) (g : ℕ → ℚ) : List ℚ :=
  start :: extendTraj (balancedGrowthCand (withSeed seed g)) 1 (steps - 1).toNat start

/-- Candidate rule of `generate_high_achiever`:
`traj[-1] + (0.10 * np.random.randn() + 0.09)`. -/
def highAchieverCand (om : ℕ → ℚ) (i : ℕ) (prev : ℚ) : ℚ :=
  prev + (0.10 * om (i - 1) + 0.09)

/-- `generate_high_achiever` of `paths.py`. -/
def generate_high_achiever (start : ℚ) (steps : ℤ) (seed : Option ℤ) (g : ℕ → ℚ) : List ℚ :=
  start :: extendTraj (highAchieverCand (withSeed seed g)) 1 (steps - 1).toNat start

/-- Candidate rule of `generate_downfall_recovery`:
`traj[-1] - 0.1 * np.random.rand() if i < 4 else traj[-1] + 0.15 * np.random.rand()`. -/
def downfallRecoveryCand (om : ℕ → ℚ) (i : ℕ) (prev : ℚ) : ℚ :=
  if i < 4 then prev - 0.1 * om (i - 1) else prev + 0.15 * om (i - 1)

/-- `generate_downfall_recovery` of `paths.py`. -/
def generate_downfall_recovery (start : ℚ) (steps : ℤ) (seed : Option ℤ) (g : ℕ → ℚ) : List ℚ :=
  start :: extendTraj (downfallRecoveryCand (withSeed seed g)) 1 (steps - 1).toNat start

/-- Candidate rule of `generate_up_down`: `direction = 1 if np.random.rand() > 0.5
else -1; traj[-1] + direction * (0.15 + 0.1 * np.random.rand())`.  Two draws per
iteration, consumed in order. -/
def upDownCand (om : ℕ → ℚ) (i : ℕ) (prev : ℚ) : ℚ :=
  prev + (if (0.5 : ℚ) < om (2 * (i - 1)) then (1 : ℚ) else -1) * (0.15 + 0.1 * om (2 * (i - 1) + 1))

/-- `generate_up_down` of `paths.py`. -/
def generate_up_down (start : ℚ) (steps : ℤ) (seed : Option ℤ) (g : ℕ → ℚ) : List ℚ :=
  start :: extendTraj (upDownCand (withSeed seed g)) 1 (steps - 1).toNat start

/-- Candidate rule of `generate_perfectionist`:
`traj[-1] - 0.15 * np.random.rand() if i in [3, 6] else traj[-1] + (0.08 + 0.07 * np.random.rand())`. -/
def perfectionistCand (om : ℕ → ℚ) (i : ℕ) (prev : ℚ) : ℚ :=
  if i = 3 ∨ i = 6 then prev - 0.15 * om (i - 1) else prev + (0.08 + 0.07 * om (i - 1))

/-- `generate_perfectionist` of `paths.py`. -/
def generate_perfectionist (start : ℚ) (steps : ℤ) (seed : Option ℤ) (g : ℕ → ℚ) : List ℚ :=
  start :: extendTraj (perfectionistCand (withSeed seed g)) 1 (steps - 1).toNat start

/-- Candidate rule of `generate_consistent_improvement`:
`traj[-1] + 0.07 + 0.02 * np.random.randn()`. -/
def consistentImprovementCand (om : ℕ → ℚ) (i : ℕ) (prev : ℚ) : ℚ :=
  prev + 0.07 + 0.02 * om (i - 1)

/-- `generate_consistent_improvement` of `paths.py`. -/
def generate_consistent_improvement (start : ℚ) (steps : ℤ) (seed : Option ℤ) (g : ℕ → ℚ) : List ℚ :=
  start :: extendTraj (consistentImprovementCand (withSeed seed g)) 1 (steps - 1).toNat start

/-- Candidate rule of `generate_chaotic`:
`traj[-1] + (0.2 * np.random.randn()) + 0.05 * ((-1) ** i)`. -/
def chaoticCand (om : ℕ → ℚ) (i : ℕ) (prev : ℚ) : ℚ :=
  prev + 0.2 * om (i - 1) + 0.05 * ((-1 : ℚ) ^ i)

/-- `generate_chaotic` of `paths.py`. -/
def generate_chaotic (start : ℚ) (steps : ℤ) (seed : Option ℤ) (g : ℕ → ℚ) : List ℚ :=
  start :: extendTraj (chaoticCand (withSeed seed g)) 1 (steps - 1).toNat start

/-- Candidate rule of `generate_late_bloomer`:
`traj[-1] - 0.02 * np.random.rand() if i < 5 else traj[-1] + 0.15 + 0.05 * np.random.rand()`. -/
def lateBloomerCand (om : ℕ → ℚ) (i : ℕ) (prev : ℚ) : ℚ :=
  if i < 5 then prev - 0.02 * om (i - 1) else prev + 0.15 + 0.05 * om (i - 1)

/-- `generate_late_bloomer` of `paths.py`. -/
def generate_late_bloomer (start : ℚ) (steps : ℤ) (seed : Option ℤ) (g : ℕ → ℚ) : List ℚ :=
  start :: extendTraj (lateBloomerCand (withSeed seed g)) 1 (steps - 1).toNat start

/-- Candidate rule of `generate_spike_plateau`:
`traj[-1] + 0.25 + 0.05 * np.random.randn() if 3 <= i <= 5 else traj[-1] + 0.02 * np.random.randn()`. -/
def spikePlateauCand (om : ℕ → ℚ) (i : ℕ) (prev : ℚ) : ℚ :=
  if 3 ≤ i ∧ i ≤ 5 then prev + 0.25 + 0.05 * om (i - 1) else prev + 0.02 * om (i - 1)

/-- `generate_spike_plateau` of `paths.py`. -/
def generate_spike_plateau (start : ℚ) (steps : ℤ) (seed : Option ℤ) (g : ℕ → ℚ) : List ℚ :=
  start :: extendTraj (spikePlateauCand (withSeed seed g)) 1 (steps - 1).toNat start

/-- Candidate rule of `generate_senioritis`:
`traj[-1] + 0.08 + 0.02 * np.random.randn() if i < 7 else traj[-1] - (0.1 * np.random.rand())`. -/
def senioritisCand (om : ℕ → ℚ) (i : ℕ) (prev : ℚ) : ℚ :=
  if i < 7 then prev + 0.08 + 0.02 * om (i - 1) else prev - 0.1 * om (i - 1)

/-- `generate_senioritis` of `paths.py`. -/
def generate_senioritis (start : ℚ) (steps : ℤ) (seed : Option ℤ) (g : ℕ → ℚ) : List ℚ :=
  start :: extendTraj (senioritisCand (withSeed seed g)) 1 (steps - 1).toNat start

/-- Candidate rule of `generate_no_study`:
`traj[-1] - (0.05 + 0.05 * np.random.rand())`. -/
def noStudyCand (om : ℕ → ℚ) (i : ℕ) (prev : ℚ) : ℚ :=
  prev - (0.05 + 0.05 * om (i - 1))

/-- `generate_no_study` of `paths.py`. -/
def generate_no_study (start : ℚ) (steps : ℤ) (seed : Option ℤ) (g : ℕ → ℚ) : List ℚ :=
  start :: extendTraj (noStudyCand (withSeed seed g)) 1 (steps - 1).toNat start

/-- Candidate rule of `generate_burnout`:
`traj[-1] - (0.1 + 0.1 * np.random.rand()) if 3 <= i <= 5 else traj[-1] + (0.05 * np.random.randn())`. -/
def burnoutCand (om : ℕ → ℚ) (i : ℕ) (prev : ℚ) : ℚ :=
  if 3 ≤ i ∧ i ≤ 5 then prev - (0.1 + 0.1 * om (i - 1)) else prev + 0.05 * om (i - 1)

/-- `generate_burnout` of `paths.py`. -/
def generate_burnout (start : ℚ) (steps : ℤ) (seed : Option ℤ) (g : ℕ → ℚ) : List ℚ :=
  start :: extendTraj (burnoutCand (withSeed seed g)) 1 (steps - 1).toNat start

/-- Candidate rule of `generate_triumph_over_adversity`:
`traj[-1] - 0.05 * np.random.rand() if i < 4 else traj[-1] + 0.12 + 0.08 * np.random.rand()`. -/
def triumphCand (om : ℕ → ℚ) (i : ℕ) (prev : ℚ) : ℚ :=
  if i < 4 then prev - 0.05 * om (i - 1) else prev + 0.12 + 0.08 * om (i - 1)

/-- `generate_triumph_over_adversity` of `paths.py`. -/
def generate_triumph_over_adversity (start : ℚ) (steps : ℤ) (seed : Option ℤ) (g : ℕ → ℚ) : List ℚ :=
  start :: extendTraj (triumphCand (withSeed seed g)) 1 (steps - 1).toNat start

/-- The 13 scenario identifiers, mirroring the `path_map` dictionary of
`app.py` / `path_styles` of `simulation.py`. -/
inductive Scenario
  | balancedGrowth
  | highAchiever
  | downfallRecovery
  | upDown
  | perfectionist
  | consistentImprovement
  | chaotic
  | lateBloomer
  | spikePlateau
  | senioritis
  | noStudy
  | burnout
  | triumphOverAdversity
deriving DecidableEq

/-- Scenario dispatch, mirroring `path_map` of `app.py`. -/
def generate (s : Scenario) (start : ℚ) (steps : ℤ) (seed : Option ℤ) (g : ℕ → ℚ) : List ℚ :=
  match s with
  | .balancedGrowth => generate_balanced_growth start steps seed g
  | .highAchiever => generate_high_achiever start steps seed g
  | .downfallRecovery => generate_downfall_recovery start steps seed g
  | .upDown => generate_up_down start steps seed g
  | .perfectionist => generate_perfectionist start steps seed g
  | .consistentImprovement => generate_consistent_improvement start steps seed g
  | .chaotic => generate_chaotic start steps seed g
  | .lateBloomer => generate_late_bloomer start steps seed g
  | .spikePlateau => generate_spike_plateau start steps seed g
  | .senioritis => generate_senioritis start steps seed g
  | .noStudy => generate_no_study start steps seed g
  | .burnout => generate_burnout start steps seed g
  | .triumphOverAdversity => generate_triumph_over_adversity start steps seed g

/-- Every element appended by the shared loop is clamped into [2, 4]. -/
lemma extendTraj_mem_bounds (cand : ℕ → ℚ → ℚ) :
    ∀ (i n : ℕ) (prev x : ℚ), x ∈ extendTraj cand i n prev → 2 ≤ x ∧ x ≤ 4 := by
  intro i n
  induction n generalizing i with
  | zero => intro prev x hx; simp [extendTraj] at hx
  | succ n ih =>
    intro prev x hx
    rcases List.mem_cons.mp hx with h | h
    · subst h
      constructor
      · exact le_min (le_max_left 2 _) (by norm_num)
      · exact min_le_right _ _
    · exact ih (i + 1) (clampGrade (cand i prev)) x h

/-- The shared loop produces exactly `n` elements. -/
lemma extendTraj_length (cand : ℕ → ℚ → ℚ) :
    ∀ (i n : ℕ) (prev : ℚ), (extendTraj cand i n prev).length = n := by
  intro i n
  induction n generalizing i with
  | zero => intro prev; simp [extendTraj]
  | succ n ih => intro prev; simp [extendTraj, ih]

/-- On a stream of nonnegative draws (as `np.random.rand()` yields), the
No Study loop started at a value ≥ 2 never increases: each appended element
is at most its predecessor and stays ≥ 2. -/
lemma noStudy_extendTraj_chain (om : ℕ → ℚ) (hom : ∀ k, 0 ≤ om k) :
    ∀ (n i : ℕ) (prev : ℚ), 2 ≤ prev →
      List.Chain (fun a b : ℚ => b ≤ a) prev (extendTraj (noStudyCand om) i n prev) := by
  intro n
  induction n with
  | zero => intro i prev _; exact List.Chain.nil
  | succ n ih =>
    intro i prev hprev
    have hd : 0 ≤ om (i - 1) := hom (i - 1)
    have hcand : noStudyCand om i prev ≤ prev := by
      unfold noStudyCand; nlinarith
    have hle : clampGrade (noStudyCand om i prev) ≤ prev := by
      unfold clampGrade
      exact le_trans (min_le_left _ _) (max_le hprev hcand)
    have hge : 2 ≤ clampGrade (noStudyCand om i prev) := by
      unfold clampGrade
      exact le_min (le_max_left 2 _) (by norm_num)
    exact List.Chain.cons hle (ih (i + 1) _ hge)

/-- C1: for every scenario, starting value, step count and integer seed, two
calls with identical (scenario, start, steps, seed) arguments produce
identical output sequences: with a seed supplied the random source is
reseeded before generation, so the ambient state of the global source (here
the streams g1, g2) is irrelevant. -/
theorem seeded_generate_deterministic (s : Scenario) (start : ℚ) (steps : ℤ)
    (seed : ℤ) (g1 g2 : ℕ → ℚ) :
    generate s start steps (some seed) g1 = generate s start steps (some seed) g2 := by
  cases s <;> rfl

/-- C2 counterexample: the claim that every element of a generated sequence,
including the first, lies in [2.0, 4.0] is false: with starting value 1.0 the
first element of the Balanced Growth output is 1.0, outside [2.0, 4.0]. -/
theorem first_element_unclamped_cex :
    ¬ (∀ x ∈ generate Scenario.balancedGrowth 1 2 (some 0) (fun _ => 0),
        2 ≤ x ∧ x ≤ 4) := by
  decide

/-- C2 (amended): for every scenario, starting value, step count, seed and
ambient stream, every element after the first lies in [2.0, 4.0] (each
candidate is clamped before being appended), while the first element is the
starting value itself, unclamped. -/
theorem elements_after_first_in_bounds (s : Scenario) (start : ℚ) (steps : ℤ)
    (seed : Option ℤ) (g : ℕ → ℚ) :
    (∀ x ∈ (generate s start steps seed g).tail, 2 ≤ x ∧ x ≤ 4) ∧
    (generate s start steps seed g).head? = some start := by
  cases s <;>
    exact ⟨fun x hx => extendTraj_mem_bounds _ 1 _ start x hx, rfl⟩

/-- C2 witness: the amended bound claim evaluated on a concrete run. -/
theorem elements_after_first_in_bounds_witness :
    (2 ≤ (3.06 : ℚ) ∧ (3.06 : ℚ) ≤ 4) ∧
    (generate Scenario.balancedGrowth 3 2 (some 0) (fun _ => 0)).head? = some 3 :=
  ⟨(elements_after_first_in_bounds Scenario.balancedGrowth 3 2 (some 0) (fun _ => 0)).1
      3.06 (by
        have htl : (generate Scenario.balancedGrowth 3 2 (some 0) (fun _ => 0)).tail
            = [3.06] := by
          norm_num [generate, generate_balanced_growth, extendTraj, balancedGrowthCand,
            withSeed, seedStream, clampGrade, min_def, max_def]
        rw [htl]
        exact List.mem_singleton_self _),
   (elements_after_first_in_bounds Scenario.balancedGrowth 3 2 (some 0) (fun _ => 0)).2⟩

/-- C3: for every scenario, start, seed and step count ≥ 1, the output has
length exactly `steps`, its first element is the starting value, and for
`steps = 1` the output is exactly `[start]` (independent of the random
stream: no draw is consumed). -/
theorem generate_length_head (s : Scenario) (start : ℚ) (steps : ℤ)
    (seed : Option ℤ) (g : ℕ → ℚ) (h : 1 ≤ steps) :
    ((generate s start steps seed g).length : ℤ) = steps ∧
    (generate s start steps seed g).head? = some start ∧
    (steps = 1 → generate s start steps seed g = [start]) := by
  have hlen : ∀ cand : ℕ → ℚ → ℚ,
      ((start :: extendTraj cand 1 (steps - 1).toNat start).length : ℤ) = steps := by
    intro cand
    simp [extendTraj_length]
    omega
  cases s <;> exact ⟨hlen _, rfl, fun h1 => by subst h1; rfl⟩

/-- C3 witness: the length/head/steps-one contract evaluated at steps = 1. -/
theorem generate_length_head_witness :
    ((generate Scenario.noStudy 3 1 (some 5) (fun _ => 0)).length : ℤ) = 1 ∧
    (generate Scenario.noStudy 3 1 (some 5) (fun _ => 0)).head? = some 3 ∧
    ((1 : ℤ) = 1 → generate Scenario.noStudy 3 1 (some 5) (fun _ => 0) = [3]) :=
  generate_length_head Scenario.noStudy 3 1 (some 5) (fun _ => 0) (by norm_num)

/-- C4 counterexample: a step count below 1 is not rejected and does not fail
fast: the generator silently returns the defaulted one-element sequence
`[start]` (here Balanced Growth with steps = 0 returns [3]). -/
theorem steps_below_one_silent_cex :
    generate Scenario.balancedGrowth 3 0 none (fun _ => 0) = [3] := by
  decide

/-- C4 (amended): for every scenario, an invalid step count (steps < 1) is
not rejected: the loop `for i in range(1, steps)` is empty and the generator
silently returns the one-element sequence `[start]`. -/
theorem steps_below_one_returns_start (s : Scenario) (start : ℚ) (steps : ℤ)
    (seed : Option ℤ) (g : ℕ → ℚ) (h : steps < 1) :
    generate s start steps seed g = [start] := by
  have h0 : (steps - 1).toNat = 0 := by omega
  cases s <;>
    simp [generate, generate_balanced_growth, generate_high_achiever,
      generate_downfall_recovery, generate_up_down, generate_perfectionist,
      generate_consistent_improvement, generate_chaotic, generate_late_bloomer,
      generate_spike_plateau, generate_senioritis, generate_no_study,
      generate_burnout, generate_triumph_over_adversity, h0, extendTraj]

/-- C4 witness: the amended silent-return behavior evaluated at steps = -2. -/
theorem steps_below_one_returns_start_witness :
    generate Scenario.chaotic 2.5 (-2) none (fun _ => 0) = [2.5] :=
  steps_below_one_returns_start Scenario.chaotic 2.5 (-2) none (fun _ => 0) (by norm_num)

/-- C5 counterexample: the No Study trajectory is not monotonically declining
for every starting value: from start 1.0 the uniform draw 0 gives candidate
0.95, which the clamp raises to 2.0, so the sequence [1, 2] increases. -/
theorem no_study_not_monotone_cex :
    ¬ List.Chain' (fun a b : ℚ => b ≤ a) (generate_no_study 1 2 none (fun _ => 0)) := by
  have hl : generate_no_study 1 2 none (fun _ => 0) = [1, 2] := by
    norm_num [generate_no_study, extendTraj, noStudyCand, withSeed, clampGrade,
      min_def, max_def]
  rw [hl, List.chain'_cons]
  norm_num

/-- C5 (amended): the No Study per-step delta before clamping lies in
[-0.10, -0.05] whenever the uniform draw lies in [0, 1]; and whenever the
starting value is at least 2.0 (and the draws are nonnegative, as uniform
draws are) the generated trajectory is monotonically declining: each element
is at most its predecessor.  (For start < 2.0 the clamp can raise the second
element above the start, as the counterexample shows.) -/
theorem no_study_decline (om : ℕ → ℚ) (i : ℕ) (prev : ℚ)
    (h0 : 0 ≤ om (i - 1)) (h1 : om (i - 1) ≤ 1) :
    (-(0.10 : ℚ) ≤ noStudyCand om i prev - prev ∧
      noStudyCand om i prev - prev ≤ -(0.05 : ℚ)) ∧
    (∀ (start : ℚ) (steps : ℤ) (seed : Option ℤ) (g : ℕ → ℚ),
      (∀ k, 0 ≤ withSeed seed g k) → 2 ≤ start →
      List.Chain' (fun a b : ℚ => b ≤ a) (generate_no_study start steps seed g)) := by
  constructor
  · unfold noStudyCand
    constructor <;> nlinarith
  · intro start steps seed g hg hstart
    exact noStudy_extendTraj_chain (withSeed seed g) hg _ 1 start hstart

/-- C5 witness: the delta range and the monotone decline evaluated on a
concrete seedless run with the all-zero ambient stream. -/
theorem no_study_decline_witness :
    ((-(0.10 : ℚ) ≤ noStudyCand (fun _ => 0) 1 3 - 3 ∧
       noStudyCand (fun _ => 0) 1 3 - 3 ≤ -(0.05 : ℚ)) ∧
     (∀ (start : ℚ) (steps : ℤ) (seed : Option ℤ) (g : ℕ → ℚ),
        (∀ k, 0 ≤ withSeed seed g k) → 2 ≤ start →
        List.Chain' (fun a b : ℚ => b ≤ a) (generate_no_study start steps seed g))) ∧
    List.Chain' (fun a b : ℚ => b ≤ a) (generate_no_study 3 3 none (fun _ => 0)) := by
  have h := no_study_decline (fun _ => 0) 1 3 (by norm_num) (by norm_num)
  exact ⟨h, h.2 3 3 none (fun _ => 0) (fun k => le_refl 0) (by norm_num)⟩

/-! Embedding of `analysis.py`.  Real values are modelled as rationals; the
floating NaN that NumPy produces for sample std/variance with one data point
(degrees of freedom ≤ 0) is modelled as `Option.none`, and the floating
square root as `Rat.sqrt` (the approximation never matters to the claims,
which only look at the `none` cases). -/

/-- `categorize_cgpa` of `analysis.py`. -/
def categorize_cgpa (cgpa : ℚ) : String :=
  if cgpa < 2.0 then "🔴 Very Low"
  else if cgpa < 3.0 then "🟠 Below 3.0"
  else if cgpa < 3.5 then "🟡 Safe Zone"
  else if cgpa < 3.6 then "🟢 Strong"
  else if cgpa < 3.8 then "🔵 Dean\x27s List Range"
  else "💎 Near Perfection"

/-- Ascending sort, modelling `np.sort` as used implicitly by median and
percentile. -/
def sortedVals (l : List ℚ) : List ℚ :=
  l.insertionSort (· ≤ ·)

/-- `np.median`: the middle element of the sorted data for odd length, the
average of the two middle elements for even length. -/
def npMedian (l : List ℚ) : ℚ :=
  if (sortedVals l).length % 2 = 1 then
    (sortedVals l).getD ((sortedVals l).length / 2) 0
  else
    ((sortedVals l).getD ((sortedVals l).length / 2 - 1) 0
      + (sortedVals l).getD ((sortedVals l).length / 2) 0) / 2

/-- `np.percentile(arr, p)` with the default linear-interpolation method:
the virtual index is `h = (n - 1) * p / 100`; the result interpolates
between the elements at `⌊h⌋` and the next position. -/
def npPercentile (l : List ℚ) (p : ℚ) : ℚ :=
  ((sortedVals l).getD ((((sortedVals l).length : ℚ) - 1) * p / 100).floor.toNat 0)
    + ((((sortedVals l).length : ℚ) - 1) * p / 100
        - (((((sortedVals l).length : ℚ) - 1) * p / 100).floor.toNat : ℚ))
      * ((sortedVals l).getD
          (min ((((sortedVals l).length : ℚ) - 1) * p / 100).floor.toNat.succ
            ((sortedVals l).length - 1)) 0
        - (sortedVals l).getD ((((sortedVals l).length : ℚ) - 1) * p / 100).floor.toNat 0)

/-- `np.min` on a nonempty array (0 as the irrelevant value on empty input,
which `summarize_statistics` never reaches). -/
def npMin : List ℚ → ℚ
  | [] => 0
  | x :: xs => xs.foldl min x

/-- `np.max` on a nonempty array. -/
def npMax : List ℚ → ℚ
  | [] => 0
  | x :: xs => xs.foldl max x

/-- `np.mean`. -/
def npMean (l : List ℚ) : ℚ :=
  l.sum / (l.length : ℚ)

/-- `np.var(arr, ddof=1)`: the sum of squared deviations over `n - 1`.
`none` models the NaN NumPy yields when the degrees of freedom are ≤ 0
(that is, when `n ≤ 1`). -/
def sampleVariance (l : List ℚ) : Option ℚ :=
  if l.length ≤ 1 then none
  else some ((l.map (fun x => (x - npMean l) ^ 2)).sum / ((l.length : ℚ) - 1))

/-- `np.std(arr, ddof=1)`: square root of the sample variance, NaN (`none`)
when the variance is NaN. -/
def sampleStd (l : List ℚ) : Option ℚ :=
  (sampleVariance l).map Rat.sqrt

/-- The record returned by `summarize_statistics` (dictionary keys `count`,
`mean`, `median`, `std`, `min`, `max`, `variance`, `25th_percentile`,
`75th_percentile`, `95ci_lower`, `95ci_upper`). -/
structure SummaryStatistics where
  count : ℕ
  mean : ℚ
  median : ℚ
  std : Option ℚ
  minVal : ℚ
  maxVal : ℚ
  variance : Option ℚ
  p25 : ℚ
  p75 : ℚ
  ciLower : Option ℚ
  ciUpper : Option ℚ
deriving DecidableEq

/-- `summarize_statistics` of `analysis.py`: `{}` (here `none`) on empty
input, otherwise the full record; `std_err = np.std(arr, ddof=1) / sqrt(n)`
and the confidence bounds are `mean ∓ 1.96 * std_err` (NaN, i.e. `none`,
whenever the std is NaN). -/
def summarize_statistics (l : List ℚ) : Option SummaryStatistics :=
  if l.length = 0 then none
  else
    some ⟨l.length, npMean l, npMedian l, sampleStd l, npMin l, npMax l,
      sampleVariance l, npPercentile l 25, npPercentile l 75,
      (sampleStd l).map (fun s => npMean l - 1.96 * (s / Rat.sqrt (l.length : ℚ))),
      (sampleStd l).map (fun s => npMean l + 1.96 * (s / Rat.sqrt (l.length : ℚ)))⟩

/-- The initial category dictionary of `compute_category_counts`, as an
ordered association list. -/
def countsInit : List (String × ℕ) :=
  [("🔴 Very Low", 0), ("🟠 Below 3.0", 0), ("🟡 Safe Zone", 0),
   ("🟢 Strong", 0), ("🔵 Dean\x27s List Range", 0), ("💎 Near Perfection", 0)]

/-- One iteration of the tally loop of `compute_category_counts`:
`counts[cat] += 1` when the key is present, otherwise the fallback branch
`counts[cat] = 1` inserts a new key at the end. -/
def bumpCount : List (String × ℕ) → String → List (String × ℕ)
  | [], cat => [(cat, 1)]
  | (k, v) :: rest, cat =>
    if k = cat then (k, v + 1) :: rest else (k, v) :: bumpCount rest cat

/-- `compute_category_counts` of `analysis.py`. -/
def compute_category_counts (l : List ℚ) : List (String × ℕ) :=
  l.foldl (fun counts v => bumpCount counts (categorize_cgpa v)) countsInit

/-! Embedding of the aggregation pieces of `app.py` the claims touch. -/

/-- `np.mean(arr > t)` as written in the Post-Simulation Analysis tab of
`app.py`: the mean of the 0/1 indicators of the strict comparison. -/
def probGt (l : List ℚ) (t : ℚ) : ℚ :=
  (l.map (fun x => if t < x then (1 : ℚ) else 0)).sum / (l.length : ℚ)

/-- The extended statistical summary of `app.py` (lines 441-456): for the
collected final values it reports the statistics record together with
`P(CGPA > 3.5)` and `P(CGPA > 3.6)`; nothing is reported when the statistics
are empty. -/
def analysisReport (l : List ℚ) : Option (SummaryStatistics × ℚ × ℚ) :=
  match summarize_statistics l with
  | none => none
  | some s => some (s, probGt l 3.5, probGt l 3.6)

/-- The per-semester running-average loop of `app.py` (lines 192-197):
`new_cgpa = ((current_gpa * completed_semesters) + single_sem_gpa) /
(completed_semesters + 1)`, with `completed_semesters` incremented after
each fold; returns `cgpa_history`. -/
def cgpaHistory (currentGpa : ℚ) (completedSemesters : ℕ) : List ℚ → List ℚ
  | [] => []
  | g :: rest =>
    ((currentGpa * (completedSemesters : ℚ) + g) / ((completedSemesters : ℚ) + 1))
      :: cgpaHistory ((currentGpa * (completedSemesters : ℚ) + g) / ((completedSemesters : ℚ) + 1))
          (completedSemesters + 1) rest

/-- C6: `categorize_cgpa` is total and its six buckets partition the line
with lower-inclusive boundaries at 2.0, 3.0, 3.5, 3.6, 3.8: every value gets
exactly the label of the unique bin containing it, and in particular 3.55 is
labelled [3.5,3.6), 3.6 is labelled [3.6,3.8) and 4.0 is labelled [3.8,∞). -/
theorem categorize_partition :
    (∀ x : ℚ,
      (categorize_cgpa x = "🔴 Very Low" ↔ x < 2) ∧
      (categorize_cgpa x = "🟠 Below 3.0" ↔ 2 ≤ x ∧ x < 3) ∧
      (categorize_cgpa x = "🟡 Safe Zone" ↔ 3 ≤ x ∧ x < 3.5) ∧
      (categorize_cgpa x = "🟢 Strong" ↔ 3.5 ≤ x ∧ x < 3.6) ∧
      (categorize_cgpa x = "🔵 Dean\x27s List Range" ↔ 3.6 ≤ x ∧ x < 3.8) ∧
      (categorize_cgpa x = "💎 Near Perfection" ↔ 3.8 ≤ x)) ∧
    categorize_cgpa 3.55 = "🟢 Strong" ∧
    categorize_cgpa 3.6 = "🔵 Dean\x27s List Range" ∧
    categorize_cgpa 4.0 = "💎 Near Perfection" := by
  refine ⟨fun x => ?_, by norm_num [categorize_cgpa], by norm_num [categorize_cgpa],
    by norm_num [categorize_cgpa]⟩
  unfold categorize_cgpa
  split_ifs with h1 h2 h3 h4 h5 <;>
    refine ⟨?_, ?_, ?_, ?_, ?_, ?_⟩ <;>
    constructor <;>
    intro h <;>
    first
      | rfl
      | exact absurd h (by decide)
      | exact ⟨by linarith, by linarith⟩
      | linarith

/-- C7: `summarize_statistics` on the empty list returns the explicit empty
marker (`{}`, here `none`), and on a one-element list `[x]` returns the
record with count 1, mean = median = min = max = x, and std and variance the
undefined-variance marker (NumPy's NaN for ddof = 1 with n = 1, modelled as
`none`), which also propagates into the confidence bounds. -/
theorem summarize_empty_and_singleton :
    summarize_statistics [] = none ∧
    ∀ x : ℚ, summarize_statistics [x]
      = some ⟨1, x, x, none, x, x, none, x, x, none, none⟩ := by
  constructor
  · rfl
  · intro x
    have hfl : (Rat.floor 0).toNat = 0 := rfl
    simp [summarize_statistics, npMean, npMedian, npPercentile, npMin, npMax,
      sampleStd, sampleVariance, sortedVals, List.insertionSort, List.orderedInsert, hfl]

/-- The indicator-sum that models `np.mean(arr > t)` counts exactly the
elements strictly above the threshold. -/
lemma sum_indicator_eq_countP (t : ℚ) (l : List ℚ) :
    (l.map (fun x => if t < x then (1 : ℚ) else 0)).sum
      = (l.countP (fun x => decide (t < x)) : ℚ) := by
  induction l with
  | nil => simp
  | cons a l ih =>
    by_cases h : t < a <;>
      simp [List.countP_cons, h, ih, add_comm]

/-- C8: for every non-empty collection of final values the extended summary
of `app.py` reports, alongside the statistics record, the fraction of values
strictly greater than 3.5 and the fraction strictly greater than 3.6. -/
theorem report_includes_threshold_probs (l : List ℚ) (h : l ≠ []) :
    ∃ s, analysisReport l
      = some (s,
          (l.countP (fun x => decide ((3.5 : ℚ) < x)) : ℚ) / (l.length : ℚ),
          (l.countP (fun x => decide ((3.6 : ℚ) < x)) : ℚ) / (l.length : ℚ)) := by
  have hlen : ¬ (l.length = 0) := by
    simpa [List.length_eq_zero] using h
  refine ⟨⟨l.length, npMean l, npMedian l, sampleStd l, npMin l, npMax l,
    sampleVariance l, npPercentile l 25, npPercentile l 75,
    (sampleStd l).map (fun s => npMean l - 1.96 * (s / Rat.sqrt (l.length : ℚ))),
    (sampleStd l).map (fun s => npMean l + 1.96 * (s / Rat.sqrt (l.length : ℚ)))⟩, ?_⟩
  unfold analysisReport summarize_statistics
  rw [if_neg hlen]
  simp [probGt, sum_indicator_eq_countP]

/-- C8 witness: the report on a concrete four-element collection. -/
theorem report_includes_threshold_probs_witness :
    ∃ s, analysisReport [2, 3.55, 3.7, 4]
      = some (s,
          (([2, 3.55, 3.7, 4] : List ℚ).countP (fun x => decide ((3.5 : ℚ) < x)) : ℚ)
            / (([2, 3.55, 3.7, 4] : List ℚ).length : ℚ),
          (([2, 3.55, 3.7, 4] : List ℚ).countP (fun x => decide ((3.6 : ℚ) < x)) : ℚ)
            / (([2, 3.55, 3.7, 4] : List ℚ).length : ℚ)) :=
  report_includes_threshold_probs [2, 3.55, 3.7, 4] (by simp)

/-- C9: the per-period reducer of `app.py` folds each single-period value
into the running average by
`new_average = (old_average * completed + period_value) / (completed + 1)`,
incrementing the completed count after each fold; folding periods [3, 4]
into starting average 2 over 2 completed periods yields 7/3 = 2.333... then
11/4 = 2.75. -/
theorem running_average_fold :
    (∀ (avg : ℚ) (n : ℕ) (pv : ℚ) (rest : List ℚ),
      cgpaHistory avg n (pv :: rest)
        = ((avg * (n : ℚ) + pv) / ((n : ℚ) + 1))
            :: cgpaHistory ((avg * (n : ℚ) + pv) / ((n : ℚ) + 1)) (n + 1) rest) ∧
    cgpaHistory 2 2 [3, 4] = [7/3, 11/4] := by
  constructor
  · intro avg n pv rest; rfl
  · norm_num [cgpaHistory]

/-- `categorize_cgpa` always returns one of the six keys preinitialized by
`compute_category_counts`, so the fallback insert branch is unreachable. -/
lemma categorize_mem_countsInit (x : ℚ) :
    categorize_cgpa x ∈ countsInit.map Prod.fst := by
  unfold categorize_cgpa countsInit
  split_ifs <;> simp

/-- Incrementing an existing key leaves the key list unchanged. -/
lemma bumpCount_keys (cat : String) :
    ∀ counts : List (String × ℕ), cat ∈ counts.map Prod.fst →
      (bumpCount counts cat).map Prod.fst = counts.map Prod.fst := by
  intro counts
  induction counts with
  | nil => intro h; simp at h
  | cons p rest ih =>
    intro h
    obtain ⟨k, v⟩ := p
    rw [List.map_cons] at h
    by_cases hk : k = cat
    · simp [bumpCount, hk]
    · have hm : cat ∈ rest.map Prod.fst := by
        rcases List.mem_cons.mp h with h' | h'
        · exact absurd h'.symm hk
        · exact h'
      simp [bumpCount, hk, ih hm]

/-- Incrementing an existing key raises the total count by one. -/
lemma bumpCount_sum (cat : String) :
    ∀ counts : List (String × ℕ), cat ∈ counts.map Prod.fst →
      ((bumpCount counts cat).map Prod.snd).sum = ((counts.map Prod.snd).sum) + 1 := by
  intro counts
  induction counts with
  | nil => intro h; simp at h
  | cons p rest ih =>
    intro h
    obtain ⟨k, v⟩ := p
    rw [List.map_cons] at h
    by_cases hk : k = cat
    · simp [bumpCount, hk]
      omega
    · have hm : cat ∈ rest.map Prod.fst := by
        rcases List.mem_cons.mp h with h' | h'
        · exact absurd h'.symm hk
        · exact h'
      simp [bumpCount, hk, ih hm]
      omega

/-- The tally loop preserves the canonical key list and adds one to the
total per processed value. -/
lemma tally_fold_invariant :
    ∀ (l : List ℚ) (counts : List (String × ℕ)),
      counts.map Prod.fst = countsInit.map Prod.fst →
      (l.foldl (fun c v => bumpCount c (categorize_cgpa v)) counts).map Prod.fst
          = countsInit.map Prod.fst ∧
      ((l.foldl (fun c v => bumpCount c (categorize_cgpa v)) counts).map Prod.snd).sum
          = (counts.map Prod.snd).sum + l.length := by
  intro l
  induction l with
  | nil => intro counts hk; simpa using hk
  | cons a l ih =>
    intro counts hk
    have hmem : categorize_cgpa a ∈ counts.map Prod.fst := by
      rw [hk]; exact categorize_mem_countsInit a
    have h1 := bumpCount_keys _ counts hmem
    have h2 := bumpCount_sum _ counts hmem
    have h3 := ih (bumpCount counts (categorize_cgpa a)) (h1.trans hk)
    refine ⟨h3.1, ?_⟩
    simp only [List.foldl_cons] at h3 ⊢
    rw [h3.2, h2]
    simp [List.length_cons]
    omega

/-- C10: for every input list, the bucket tally of
`compute_category_counts` has exactly the six canonical labels as keys (the
fallback branch that would insert a new key is unreachable, because
`categorize_cgpa` always returns one of the six labels) and its counts sum
to the length of the input. -/
theorem category_counts_keys_and_total (l : List ℚ) :
    (compute_category_counts l).map Prod.fst
      = ["🔴 Very Low", "🟠 Below 3.0", "🟡 Safe Zone", "🟢 Strong",
         "🔵 Dean\x27s List Range", "💎 Near Perfection"] ∧
    ((compute_category_counts l).map Prod.snd).sum = l.length := by
  have h := tally_fold_invariant l countsInit rfl
  unfold compute_category_counts
  refine ⟨h.1.trans (by simp [countsInit]), ?_⟩
  rw [h.2]
  simp [countsInit]

end GradeVisualizer
